import Mathlib

/-!
# Verification of the image-registry-api storage and upload engine

A shallow embedding of the Go sources of `ricardomaraschini/image-registry-api`:
the content-addressable blob store and tag store (`registry/registry.go`), the
upload-session manager (`upload.go`), the blob and manifest HTTP handlers
(`registry/blob.go`, `registry/manifest.go`) and the dispatcher
(`registry/registry.go`, `option.go`).

Modelling conventions:
* file contents are `List Char` (Go treats file bytes and strings
  interchangeably here);
* the filesystem is a map `String → Option (List Char)` from paths to
  contents; filesystem primitives are assumed not to fail (the sources treat
  filesystem errors as environment failures surfaced verbatim);
* `crypto/sha256` + `fmt.Sprintf("%x", ...)` is an external library, modelled
  as a parameter `sha : List Char → String` producing the hex digest text;
* `uuid.Parse` succeeding is modelled as a parameter `isUUID : String → Bool`;
* `time.Time` is `Nat`; `time.Now()` is threaded explicitly as `now`;
* Go's `os.OpenFile` with `O_CREATE|O_RDWR` (no `O_TRUNC`) followed by a
  write from offset 0 keeps the tail of a longer pre-existing file; this is
  modelled by `overwriteFrom`.
-/

namespace ImageRegistryApi

/-- File contents: a byte/char sequence. -/
abbrev Bytes := List Char

/-- The filesystem: a flat map from absolute paths to file contents. -/
abbrev FS := String → Option Bytes

/-- The empty filesystem. -/
def FS.empty : FS := fun _ => none

/-- Store content `c` at path `p`. -/
def FS.write (fs : FS) (p : String) (c : Bytes) : FS :=
  fun q => if q = p then some c else fs q

/-- Remove path `p` (Go `os.RemoveAll`, which also succeeds when absent). -/
def FS.remove (fs : FS) (p : String) : FS :=
  fun q => if q = p then none else fs q

/-- Writing a file opened with `O_CREATE|O_RDWR` (no truncation) from offset 0:
the new content overlays the old one, keeping the tail of a longer old file. -/
def overwriteFrom (old : Option Bytes) (c : Bytes) : Bytes :=
  c ++ (old.getD []).drop c.length

/-- The hex digest text with the algorithm prefix, as built by
`fmt.Sprintf("sha256:%x", hasher.Sum(nil))` in `PutBlob`/`StoreManifest`. -/
def digestOf (sha : Bytes → String) (c : Bytes) : String :=
  "sha256:" ++ sha c

/-- Model of `registry.StorageHandler`: the on-disk blob/tag storage rooted at
`basedir`. -/
structure StorageHandler where
  basedir : String

/-- Model of `NewStorageHandler` from `registry/registry.go`. -/
def NewStorageHandler : StorageHandler :=
  { basedir := "/tmp/storage" }

/-- The blob path `{basedir}/{repo}/{image}/{hash}` built by
`GetBlob`/`PutBlob`/`StatBlob`. -/
def StorageHandler.blobPath (s : StorageHandler) (repo image hash : String) : String :=
  s.basedir ++ "/" ++ repo ++ "/" ++ image ++ "/" ++ hash

/-- The tag path `{basedir}/{repo}/{image}/tags/{tag}` built by
`PutTag`/`GetTag`. -/
def StorageHandler.tagPath (s : StorageHandler) (repo image tag : String) : String :=
  s.basedir ++ "/" ++ repo ++ "/" ++ image ++ "/tags/" ++ tag

/-- Model of `StorageHandler.PutBlob` (`registry/registry.go`): streams the content to
the blob path while hashing it, then compares the computed digest with the
asserted one; on mismatch the file is removed and an error returned.  The file
is opened `O_CREATE|O_RDWR` (no truncation), so the copy overlays any
pre-existing content.  Returns the new filesystem and `some errorMessage` on
failure. -/
def StorageHandler.PutBlob (s : StorageHandler) (sha : Bytes → String)
    (fs : FS) (repo image hash : String) (c : Bytes) : FS × Option String :=
  let p := s.blobPath repo image hash
  let fs1 := fs.write p (overwriteFrom (fs p) c)
  let reshash := digestOf sha c
  if hash ≠ reshash then
    (fs1.remove p, some "blob hash mismatch")
  else
    (fs1, none)

/-- Model of `StorageHandler.GetBlob` (`registry/registry.go`): opens the blob path and
returns its content and size; `none` models the `os.Open` not-found failure. -/
def StorageHandler.GetBlob (s : StorageHandler) (fs : FS)
    (repo image hash : String) : Option (Bytes × Nat) :=
  match fs (s.blobPath repo image hash) with
  | some c => some (c, c.length)
  | none => none

/-- Model of `StorageHandler.StatBlob` (`registry/registry.go`): `os.Stat` on the blob
path; `some size` when the file exists, `none` for the not-found error. -/
def StorageHandler.StatBlob (s : StorageHandler) (fs : FS)
    (repo image hash : String) : Option Nat :=
  match fs (s.blobPath repo image hash) with
  | some c => some c.length
  | none => none

/-- Model of `StorageHandler.PutTag` (`registry/registry.go`): opens the tag file with
`O_CREATE|O_RDWR` (no truncation) and writes the digest string from offset 0,
keeping the tail of a longer pre-existing value. -/
def StorageHandler.PutTag (s : StorageHandler) (fs : FS)
    (repo image tag hash : String) : FS :=
  let p := s.tagPath repo image tag
  fs.write p (overwriteFrom (fs p) hash.data)

/-- Model of `StorageHandler.GetTag` (`registry/registry.go`): reads the tag file to a
digest string and delegates to `GetBlob` with it. -/
def StorageHandler.GetTag (s : StorageHandler) (fs : FS)
    (repo image tag : String) : Option (Bytes × Nat) :=
  match fs (s.tagPath repo image tag) with
  | some data => s.GetBlob fs repo image (String.mk data)
  | none => none

/-! ## Upload session manager (`upload.go`) -/

/-- The active-upload map `map[string]time.Time`, modelled as an association
list from upload id to expiry time. -/
abbrev Active := List (String × Nat)

/-- Model of `registry.UploadHandler`: the active-session set plus the temp-file
directory. -/
structure UploadHandler where
  active : Active
  basedir : String

/-- Model of `NewUploadHandler` from `upload.go` (without the sweeper task, which is
spawned separately). -/
def NewUploadHandler : UploadHandler :=
  { active := [], basedir := "/tmp/uploads" }

/-- Model of `UploadHandler.tmpFileForUpload`: `{basedir}/{id}.tmp`. -/
def UploadHandler.tmpFileForUpload (u : UploadHandler) (id : String) : String :=
  u.basedir ++ "/" ++ id ++ ".tmp"

/-- The distinct failure causes of `UploadHandler.isValid`, plus the
`os.Open` failure of `End` when no temp file exists. -/
inductive UploadErr
  | malformedId
  | unknownId
  | expiredId
  | noTmpFile
deriving DecidableEq, Repr

/-- Model of `UploadHandler.Start`: records `now + ttl` as the expiry of the freshly
generated id (`uuid.New().String()` is passed in as `id`). Go map assignment
replaces any previous binding. -/
def UploadHandler.Start (u : UploadHandler) (id : String) (now ttl : Nat) :
    UploadHandler :=
  { u with active := (id, now + ttl) :: u.active.filter (fun p => !(p.1 == id)) }

/-- Model of `UploadHandler.isValid`: rejects ids that `uuid.Parse` refuses, ids absent
from the active map, and ids whose expiry lies strictly in the past
(`time.Now().After(expire)`). -/
def UploadHandler.isValid (u : UploadHandler) (isUUID : String → Bool)
    (id : String) (now : Nat) : Option UploadErr :=
  if !(isUUID id) then some .malformedId
  else
    match u.active.lookup id with
    | none => some .unknownId
    | some expire => if now > expire then some .expiredId else none

/-- Model of `UploadHandler.Append`: validates the id, opens the temp file with
`O_CREATE|O_RDWR|O_APPEND` (creating it when absent) and appends the request
bytes; returns the number of bytes written by this call. -/
def UploadHandler.Append (u : UploadHandler) (isUUID : String → Bool)
    (fs : FS) (id : String) (b : Bytes) (now : Nat) :
    FS × Except UploadErr Nat :=
  match u.isValid isUUID id now with
  | some e => (fs, .error e)
  | none =>
    let p := u.tmpFileForUpload id
    (fs.write p ((fs p).getD [] ++ b), .ok b.length)

/-- Model of `UploadHandler.End`: validates the id, opens the temp file for reading
(failing when it does not exist), removes the id from the active map and
returns the readable content.  The temp file itself is deleted only when the
returned `tmpFileWrapper` is closed. -/
def UploadHandler.End (u : UploadHandler) (isUUID : String → Bool)
    (fs : FS) (id : String) (now : Nat) :
    UploadHandler × Except UploadErr Bytes :=
  match u.isValid isUUID id now with
  | some e => (u, .error e)
  | none =>
    match fs (u.tmpFileForUpload id) with
    | none => (u, .error .noTmpFile)
    | some content =>
      ({ u with active := u.active.filter (fun p => !(p.1 == id)) }, .ok content)

/-- Model of `tmpFileWrapper.Close` (`upload.go`): closing the handle returned by `End`
removes the temp file from disk. -/
def tmpFileWrapperClose (u : UploadHandler) (fs : FS) (id : String) : FS :=
  fs.remove (u.tmpFileForUpload id)

/-- Model of `UploadHandler.Delete`: unconditionally removes the temp file
(`os.RemoveAll`, which also succeeds when the file is absent) and drops the id
from the active map.  Returns no error. -/
def UploadHandler.Delete (u : UploadHandler) (fs : FS) (id : String) :
    UploadHandler × FS :=
  ({ u with active := u.active.filter (fun p => !(p.1 == id)) },
   fs.remove (u.tmpFileForUpload id))

/-! ### The sweeper task (`UploadHandler.gc`)

`gc` allocates a `time.Ticker` and executes a single `select`: if the context
is cancelled first it returns without sweeping; if the ticker fires first it
runs `clean` once and then falls off the end of the function.  The observable
scheduling behaviour is captured over a trace of events (each event being
whichever of the two channels fires next). -/

/-- One observable event for the sweeper's `select`: either the external
cancellation signal or a ticker tick. -/
inductive GcEvent
  | cancel
  | tick
deriving DecidableEq, Repr

/-- Model of `UploadHandler.gc` (`upload.go`): the number of `clean` sweeps performed
over a trace of events.  The body is a single `select` with no surrounding
loop: a first event `cancel` returns immediately, a first event `tick` runs
`clean` once and the function then returns, ignoring every later event. -/
def gcCleans : List GcEvent → Nat
  | [] => 0
  | GcEvent.cancel :: _ => 0
  | GcEvent.tick :: _ => 1

/-- Modelled from the spec: the periodic sweeper described in the design
("runs its reclamation pass periodically at a fixed interval ... until an
external cancellation signal is observed") performs one sweep per tick until
the first cancellation event. -/
def gcCleansSpec : List GcEvent → Nat
  | [] => 0
  | GcEvent.cancel :: _ => 0
  | GcEvent.tick :: rest => 1 + gcCleansSpec rest

/-! ## Request classification (`option.go`)

Go's `strings` helpers are re-implemented structurally over `List Char` so
that every classification function evaluates by kernel reduction. -/

/-- Model of `strings.HasPrefix` on char lists: does the second list start with the
first? -/
def hasPrefixL : List Char → List Char → Bool
  | [], _ => true
  | _ :: _, [] => false
  | a :: as, b :: bs => a == b && hasPrefixL as bs

/-- Model of `strings.Contains` on char lists: does the second list contain the first
as a contiguous run? -/
def containsL (needle : List Char) : List Char → Bool
  | [] => needle.isEmpty
  | b :: bs => hasPrefixL needle (b :: bs) || containsL needle bs

/-- Model of `strings.HasSuffix` on char lists. -/
def hasSuffixL (needle l : List Char) : Bool :=
  hasPrefixL needle.reverse l.reverse

/-- Model of `strings.Split` with a single-character separator: splits at every
occurrence, always returning at least one (possibly empty) part. -/
def splitOnChar (c : Char) : List Char → List (List Char)
  | [] => [[]]
  | x :: xs =>
    let rest := splitOnChar c xs
    if x == c then [] :: rest
    else
      match rest with
      | [] => [[x]]
      | y :: ys => (x :: y) :: ys

/-- Model of `strings.TrimSuffix(s, "/")`: removes one trailing slash when present. -/
def trimSlash (l : List Char) : List Char :=
  match l.getLast? with
  | some c => if c == '/' then l.dropLast else l
  | none => l

/-- Model of `registry.Request`: the wrapped `http.Request`, reduced to the parts the
handlers inspect.  `query` models `URL.Query().Get` (empty string when the
variable is absent); `body` is the request body. -/
structure Request where
  method : String
  path : String
  query : String → String
  body : Bytes

/-- Model of `Request.IsPing`: the path, trimmed of a trailing slash, equals `/v2`. -/
def Request.IsPing (r : Request) : Bool :=
  trimSlash r.path.data == "/v2".data

/-- Model of `Request.IsAuth`: the trimmed path equals `/v2/auth`. -/
def Request.IsAuth (r : Request) : Bool :=
  trimSlash r.path.data == "/v2/auth".data

/-- Model of `Request.IsBlob`: the path contains `/blobs/`. -/
def Request.IsBlob (r : Request) : Bool :=
  containsL "/blobs/".data r.path.data

/-- Model of `Request.IsManifest`: the path contains `/manifests/`. -/
def Request.IsManifest (r : Request) : Bool :=
  containsL "/manifests/".data r.path.data

/-- Model of `Request.IsBlobUploadRequest`: the trimmed path ends with
`/blobs/uploads`. -/
def Request.IsBlobUploadRequest (r : Request) : Bool :=
  hasSuffixL "/blobs/uploads".data (trimSlash r.path.data)

/-- Model of `Request.HasBlobUploadID`: the path contains `/blobs/upload/id/`. -/
def Request.HasBlobUploadID (r : Request) : Bool :=
  containsL "/blobs/upload/id/".data r.path.data

/-- Model of `Request.IsHead`. -/
def Request.IsHead (r : Request) : Bool := r.method == "HEAD"

/-- Model of `Request.IsGet`. -/
def Request.IsGet (r : Request) : Bool := r.method == "GET"

/-- Model of `Request.IsPut`. -/
def Request.IsPut (r : Request) : Bool := r.method == "PUT"

/-- Model of `Request.IsPatch`. -/
def Request.IsPatch (r : Request) : Bool := r.method == "PATCH"

/-- Model of `Request.IsDelete`. -/
def Request.IsDelete (r : Request) : Bool := r.method == "DELETE"

/-- Model of `Request.RepositoryAndImage`: splits the path on `/` and returns parts 2
and 3, failing when fewer than four parts exist. -/
def Request.RepositoryAndImage (r : Request) : Option (String × String) :=
  match splitOnChar '/' r.path.data with
  | _ :: _ :: repo :: image :: _ => some (String.mk repo, String.mk image)
  | _ => none

/-- Model of `Request.last`: the last `/`-separated component of the path. -/
def Request.lastPart (r : Request) : String :=
  String.mk ((splitOnChar '/' r.path.data).getLastD [])

/-- Model of `Request.UploadID` = `last`. -/
def Request.UploadID (r : Request) : String := r.lastPart

/-- Model of `Request.BlobHash` = `last`. -/
def Request.BlobHash (r : Request) : String := r.lastPart

/-- Model of `Request.ManifestID` = `last`. -/
def Request.ManifestID (r : Request) : String := r.lastPart

/-! ## Wire errors and responses (`registry/error.go`) -/

/-- Model of `registry.Error`: the wire error with HTTP status, protocol code and
message. -/
structure Error where
  status : Nat
  code : String
  message : String
deriving DecidableEq, Repr

/-- Model of `ErrUnauthorized`. -/
def ErrUnauthorized : Error :=
  { status := 401, code := "UNAUTHORIZED",
    message := "server does not support unauthorized requests" }

/-- Model of `ErrUnknownBlob`. -/
def ErrUnknownBlob : Error :=
  { status := 404, code := "BLOB_UNKNOWN", message := "unknown blob" }

/-- Model of `ErrUnknownManifest`. -/
def ErrUnknownManifest : Error :=
  { status := 404, code := "MANIFEST_UNKNOWN", message := "unknown manifest" }

/-- Model of `ErrUnsupported`. -/
def ErrUnsupported : Error :=
  { status := 405, code := "UNSUPPORTED", message := "unsupported operation" }

/-- Model of `ErrInternal`: wraps a lower-layer error message. -/
def ErrInternal (msg : String) : Error :=
  { status := 500, code := "INTERNAL_SERVER_ERROR", message := msg }

/-- The observable server response: headers in the order they were set, the
status of the first `WriteHeader` call (later calls are ignored by
`net/http`), the codes of the JSON error bodies written, the raw body bytes
and the JSON token body of the auth endpoint. -/
structure Response where
  headers : List (String × String) := []
  status : Option Nat := none
  errCodes : List String := []
  body : Bytes := []
  token : Option String := none

/-- Model of `resp.WriteHeader`: only the first call takes effect. -/
def Response.writeHeader (r : Response) (s : Nat) : Response :=
  match r.status with
  | some _ => r
  | none => { r with status := some s }

/-- Model of `resp.Header().Set`: replaces the value of the key, or appends it. -/
def Response.setHeader (r : Response) (k v : String) : Response :=
  if (r.headers.lookup k).isSome then
    { r with headers := r.headers.map (fun p => if p.1 = k then (k, v) else p) }
  else
    { r with headers := r.headers ++ [(k, v)] }

/-- Model of `resp.Header().Add`: appends a value for the key. -/
def Response.addHeader (r : Response) (k v : String) : Response :=
  { r with headers := r.headers ++ [(k, v)] }

/-- Model of `resp.Write` of body bytes: triggers the implicit `WriteHeader(200)` of
`net/http` when no status was written yet. -/
def Response.writeBody (r : Response) (c : Bytes) : Response :=
  let r1 := r.writeHeader 200
  { r1 with body := r1.body ++ c }

/-- Model of `Error.Write`: `WriteHeader(status)` followed by encoding the JSON error
body (recorded by its protocol code). -/
def Error.Write (e : Error) (r : Response) : Response :=
  let r1 := r.writeHeader e.status
  { r1 with errCodes := r1.errCodes ++ [e.code] }

/-! ## HTTP handlers (`registry/blob.go`, `registry/manifest.go`)

Handlers are modelled as functions from the mutable server state (`World`)
and the request to the response, the new state, and the trace of store-layer /
upload-session operations performed (used to state that no store access
happens on an unauthorized request). -/

/-- The mutable server-side state: the active-upload set and the filesystem
(blob storage under `/tmp/storage`, upload temp files under `/tmp/uploads`). -/
structure World where
  upload : UploadHandler
  fs : FS

/-- A store-layer or upload-session operation, recorded when a handler invokes
the corresponding `StorageHandler`/`UploadHandler` method. -/
inductive StoreOp
  | statBlob (repo image hash : String)
  | getBlob (repo image hash : String)
  | putBlob (repo image hash : String)
  | putTag (repo image tag : String)
  | getTag (repo image tag : String)
  | upStart (id : String)
  | upAppend (id : String)
  | upEnd (id : String)
  | upDelete (id : String)
deriving DecidableEq, Repr

/-- The message texts of the upload validation errors (`upload.go`). -/
def UploadErr.message : UploadErr → String
  | .malformedId => "invalid upload id"
  | .unknownId => "unknown upload id"
  | .expiredId => "upload id expired"
  | .noTmpFile => "unable to access tmp file"

/-- The fixed TTL of `StartBlobUpload`: `20 * time.Minute`, in seconds. -/
def uploadTTL : Nat := 20 * 60

/-- Model of `strings.TrimPrefix(hash, "sha256:")`. -/
def trimSha (hash : String) : String :=
  if hasPrefixL "sha256:".data hash.data then String.mk (hash.data.drop 7)
  else hash

/-- Model of `BlobHandler.Stat` (`registry/blob.go`): HEAD on a blob; 404 with
`BLOB_UNKNOWN` when absent, else 200 with `content-length` and
`docker-content-digest` headers. -/
def BlobHandler.Stat (storage : StorageHandler) (w : World) (r : Request) :
    Response × World × List StoreOp :=
  match r.RepositoryAndImage with
  | none => ((ErrInternal "unable to extract url repository and image").Write {}, w, [])
  | some (repo, img) =>
    let hash := r.BlobHash
    match storage.StatBlob w.fs repo img hash with
    | none => (ErrUnknownBlob.Write {}, w, [.statBlob repo img hash])
    | some size =>
      let resp := ({} : Response).setHeader "content-length" (toString size)
      let resp := resp.setHeader "docker-content-digest" (trimSha hash)
      (resp.writeHeader 200, w, [.statBlob repo img hash])

/-- Model of `BlobHandler.StartBlobUpload` (`registry/blob.go`): allocates a session
with a 20-minute TTL and returns 202 with `location` and `range: 0-0`
headers.  The id generated by `uuid.New().String()` is passed in as
`newId`. -/
def BlobHandler.StartBlobUpload (w : World) (r : Request) (newId : String)
    (now : Nat) : Response × World × List StoreOp :=
  match r.RepositoryAndImage with
  | none => ((ErrInternal "unable to extract url repository and image").Write {}, w, [])
  | some (repo, img) =>
    let upload1 := w.upload.Start newId now uploadTTL
    let resp := ({} : Response).setHeader "location"
      ("/v2/" ++ repo ++ "/" ++ img ++ "/blobs/upload/id/" ++ newId)
    let resp := resp.setHeader "range" "0-0"
    (resp.writeHeader 202, { w with upload := upload1 }, [.upStart newId])

/-- Model of `BlobHandler.Get` (`registry/blob.go`): GET on a blob; 404 with
`BLOB_UNKNOWN` when absent, else the blob bytes with a `content-length`
header. -/
def BlobHandler.Get (storage : StorageHandler) (w : World) (r : Request) :
    Response × World × List StoreOp :=
  let hash := r.BlobHash
  match r.RepositoryAndImage with
  | none => ((ErrInternal "unable to extract url repository and image").Write {}, w, [])
  | some (repo, image) =>
    match storage.GetBlob w.fs repo image hash with
    | none => (ErrUnknownBlob.Write {}, w, [.getBlob repo image hash])
    | some (c, size) =>
      let resp := ({} : Response).addHeader "content-length" (toString size)
      (resp.writeBody c, w, [.getBlob repo image hash])

/-- Model of `BlobHandler.UploadBlob` (`registry/blob.go`): the chunk/commit/cancel
handler for `/blobs/upload/id/{id}`.  DELETE cancels; otherwise the body is
appended; PATCH returns 204; a final (non-PATCH) request commits via
`UploadHandler.End` (whose returned handle deletes the temp file when closed
on every exit path), requires a `digest` query parameter, and persists the
content via `PutBlob`.  A `PutBlob` failure writes the internal error and
falls through (no `return` in the source) to the superfluous
`WriteHeader(201)`. -/
def BlobHandler.UploadBlob (storage : StorageHandler) (isUUID : String → Bool)
    (sha : Bytes → String) (w : World) (r : Request) (now : Nat) :
    Response × World × List StoreOp :=
  let id := r.UploadID
  if id = "" then ((ErrInternal "empty upload id").Write {}, w, [])
  else
    match r.RepositoryAndImage with
    | none => ((ErrInternal "unable to extract url repository and image").Write {}, w, [])
    | some (repo, img) =>
      if r.IsDelete then
        let (u1, fs1) := w.upload.Delete w.fs id
        (({} : Response).writeHeader 200, ⟨u1, fs1⟩, [.upDelete id])
      else
        match w.upload.Append isUUID w.fs id r.body now with
        | (fs1, .error e) =>
          ((ErrInternal ("unable to append to upload: " ++ e.message)).Write {},
           { w with fs := fs1 }, [.upAppend id])
        | (fs1, .ok written) =>
          let resp := ({} : Response).setHeader "location"
            ("/v2/" ++ repo ++ "/" ++ img ++ "/blobs/upload/id/" ++ id)
          let resp := resp.setHeader "range" ("0-" ++ toString written)
          if r.IsPatch then
            (resp.writeHeader 204, { w with fs := fs1 }, [.upAppend id])
          else
            match w.upload.End isUUID fs1 id now with
            | (u1, .error e) =>
              ((ErrInternal ("unable to append to upload: " ++ e.message)).Write resp,
               { upload := u1, fs := fs1 }, [.upAppend id, .upEnd id])
            | (u1, .ok content) =>
              let expdgst := r.query "digest"
              if expdgst = "" then
                ((ErrInternal "empty digest provided during upload").Write resp,
                 { upload := u1, fs := tmpFileWrapperClose u1 fs1 id },
                 [.upAppend id, .upEnd id])
              else
                match storage.PutBlob sha fs1 repo img expdgst content with
                | (fs2, some msg) =>
                  (((ErrInternal msg).Write resp).writeHeader 201,
                   { upload := u1, fs := tmpFileWrapperClose u1 fs2 id },
                   [.upAppend id, .upEnd id, .putBlob repo img expdgst])
                | (fs2, none) =>
                  (resp.writeHeader 201,
                   { upload := u1, fs := tmpFileWrapperClose u1 fs2 id },
                   [.upAppend id, .upEnd id, .putBlob repo img expdgst])

/-- Model of `BlobHandler.ServeHTTP` (`registry/blob.go`): method/shape dispatch of
blob requests, first match wins. -/
def BlobHandler.ServeHTTP (storage : StorageHandler) (isUUID : String → Bool)
    (sha : Bytes → String) (w : World) (r : Request) (newId : String)
    (now : Nat) : Response × World × List StoreOp :=
  if r.IsHead then BlobHandler.Stat storage w r
  else if r.IsGet then BlobHandler.Get storage w r
  else if r.HasBlobUploadID then BlobHandler.UploadBlob storage isUUID sha w r now
  else if r.IsBlobUploadRequest then BlobHandler.StartBlobUpload w r newId now
  else (ErrUnsupported.Write {}, w, [])

/-- The optional `EventHandler` collaborator: `NewTag(repo, image, tag)`
returning `some message` on failure. -/
abbrev EventHandler := Option (String → String → String → Option String)

/-- The `m.evthandler != nil` guard around the `NewTag` notification in
`StoreManifest`: absent handlers never fail. -/
def EventHandler.newTag (evt : EventHandler) (repo image tag : String) :
    Option String :=
  match evt with
  | some f => f repo image tag
  | none => none

/-- Model of `ManifestHandler.StoreManifest` (`registry/manifest.go`): buffers and
hashes the body, stores it as a blob under the computed digest, and — only
when the reference is not itself a digest — writes the tag, notifies the
event handler, and sets the `docker-content-digest` header.  A digest
reference returns 201 with no header; an event-handler failure aborts with an
internal error. -/
def ManifestHandler.StoreManifest (storage : StorageHandler)
    (sha : Bytes → String) (evt : EventHandler) (w : World) (r : Request) :
    Response × World × List StoreOp :=
  let manid := r.ManifestID
  match r.RepositoryAndImage with
  | none => ((ErrInternal "unable to extract url repository and image").Write {}, w, [])
  | some (repo, image) =>
    let hash := digestOf sha r.body
    match storage.PutBlob sha w.fs repo image hash r.body with
    | (fs1, some msg) =>
      ((ErrInternal msg).Write {}, { w with fs := fs1 }, [.putBlob repo image hash])
    | (fs1, none) =>
      if hasPrefixL "sha256:".data manid.data then
        (({} : Response).writeHeader 201, { w with fs := fs1 },
         [.putBlob repo image hash])
      else
        let fs2 := storage.PutTag fs1 repo image manid hash
        match EventHandler.newTag evt repo image manid with
        | some msg =>
          ((ErrInternal msg).Write {}, { w with fs := fs2 },
           [.putBlob repo image hash, .putTag repo image manid])
        | none =>
          ((({} : Response).setHeader "docker-content-digest" hash).writeHeader 201,
           { w with fs := fs2 }, [.putBlob repo image hash, .putTag repo image manid])

/-- Model of `ManifestHandler.GetManifest` (`registry/manifest.go`): fetches by digest
(`sha256:` prefix) via `GetBlob` or by tag via `GetTag`; absent manifests give
404 `MANIFEST_UNKNOWN`; the body is returned with `content-length` and
`content-type` headers (`manifest.GuessMIMEType` is the external collaborator
`guessMime`). -/
def ManifestHandler.GetManifest (storage : StorageHandler)
    (guessMime : Bytes → String) (w : World) (r : Request) :
    Response × World × List StoreOp :=
  let manid := r.ManifestID
  match r.RepositoryAndImage with
  | none => ((ErrInternal "unable to extract url repository and image").Write {}, w, [])
  | some (repo, image) =>
    let isDigest := hasPrefixL "sha256:".data manid.data
    let res := if isDigest then storage.GetBlob w.fs repo image manid
               else storage.GetTag w.fs repo image manid
    let ops := if isDigest then [StoreOp.getBlob repo image manid]
               else [StoreOp.getTag repo image manid]
    match res with
    | none => (ErrUnknownManifest.Write {}, w, ops)
    | some (data, size) =>
      let resp := ({} : Response).addHeader "content-length" (toString size)
      let resp := resp.addHeader "content-type" (guessMime data)
      let resp := resp.addHeader "content-type" "application/json"
      (resp.writeBody data, w, ops)

/-- Model of `ManifestHandler.ServeHTTP` (`registry/manifest.go`). -/
def ManifestHandler.ServeHTTP (storage : StorageHandler)
    (sha : Bytes → String) (guessMime : Bytes → String) (evt : EventHandler)
    (w : World) (r : Request) : Response × World × List StoreOp :=
  if r.IsGet then ManifestHandler.GetManifest storage guessMime w r
  else if r.IsPut then ManifestHandler.StoreManifest storage sha evt w r
  else (ErrUnsupported.Write {}, w, [])

/-! ## The dispatcher (`registry/registry.go`) -/

/-- The external `Authorizer` collaborator: `Authorize` returns `none` for a
valid credential, and `Authenticate` returns a token or an error. -/
structure Authorizer where
  authenticate : Request → Except Error String
  authorize : Request → Option Error

/-- Model of `Registry.redirectToAuth` (`registry/registry.go`): the ping handler; 200
when authorized, else a `www-authenticate` challenge with 401 and no error
body. -/
def Registry.redirectToAuth (authzer : Authorizer) (srvaddr : String)
    (r : Request) : Response :=
  let resp := ({} : Response).addHeader "docker-distribution-api-version" "registry/2.0"
  match authzer.authorize r with
  | none => resp.writeHeader 200
  | some _ =>
    let realm := "https://" ++ srvaddr ++ "/v2/auth"
    let authdr := "bearer realm=\"" ++ realm ++ "\",service=\"" ++ srvaddr ++ "\""
    (resp.addHeader "www-authenticate" authdr).writeHeader 401

/-- Model of `Registry.authenticate` (`registry/registry.go`): returns the token as a
JSON body, or writes the authentication error. -/
def Registry.authenticate (authzer : Authorizer) (r : Request) : Response :=
  let resp := ({} : Response).addHeader "docker-distribution-api-version" "registry/2.0"
  let resp := resp.addHeader "content-type" "application/json"
  match authzer.authenticate r with
  | .error e => e.Write resp
  | .ok token => { resp.writeHeader 200 with token := some token }

/-- Model of `Registry.ServeHTTP` (`registry/registry.go`): classification order —
ping, auth, authorization gate, blob, manifest, unsupported.  Returns the
response, the new server state and the trace of store operations
performed. -/
def Registry.ServeHTTP (authzer : Authorizer) (srvaddr : String)
    (storage : StorageHandler) (isUUID : String → Bool)
    (sha : Bytes → String) (guessMime : Bytes → String) (evt : EventHandler)
    (w : World) (r : Request) (newId : String) (now : Nat) :
    Response × World × List StoreOp :=
  if r.IsPing then (Registry.redirectToAuth authzer srvaddr r, w, [])
  else if r.IsAuth then (Registry.authenticate authzer r, w, [])
  else
    match authzer.authorize r with
    | some e => (e.Write {}, w, [])
    | none =>
      if r.IsBlob then BlobHandler.ServeHTTP storage isUUID sha w r newId now
      else if r.IsManifest then
        ManifestHandler.ServeHTTP storage sha guessMime evt w r
      else (ErrUnsupported.Write {}, w, [])

/-! ## Helper lemmas -/

/-- Looking up a key in an association list from which every binding of that
key was filtered out yields `none`. -/
theorem lookup_filter_ne (l : Active) (id : String) :
    (l.filter (fun p => !(p.1 == id))).lookup id = none := by
  induction l with
  | nil => rfl
  | cons hd tl ih =>
    obtain ⟨k, v⟩ := hd
    by_cases h : k = id
    · simpa [List.filter, h] using ih
    · have hkid : (!(k == id)) = true := by
        simp only [Bool.not_eq_true', beq_eq_false_iff_ne, ne_eq]
        exact h
      have hk : (id == k) = false := by
        simp only [beq_eq_false_iff_ne, ne_eq]
        exact fun e => h e.symm
      simp only [List.filter_cons, hkid, if_true, List.lookup, hk]
      exact ih

/-- Filtering twice with the same predicate equals filtering once. -/
theorem filter_idem (p : (String × Nat) → Bool) (l : Active) :
    (l.filter p).filter p = l.filter p := by
  induction l with
  | nil => rfl
  | cons hd tl ih => by_cases h : p hd <;> simp [List.filter, h, ih]

/-- Reading back a freshly written path. -/
theorem FS.write_read (fs : FS) (p : String) (c : Bytes) :
    fs.write p c p = some c := by
  simp [FS.write]

/-- Removing a path from the filesystem twice equals removing it once. -/
theorem remove_idem (fs : FS) (p : String) :
    (fs.remove p).remove p = fs.remove p := by
  funext q
  by_cases h : q = p <;> simp [FS.remove, h]

/-! ## Claim theorems -/

/-- C1: for every repository, image, valid digest `d` and content `c` with
`sha256(c) = d`, `PutBlob(repo, image, d, c)` succeeds, and a `GetBlob(repo,
image, d)` performed afterwards returns exactly the bytes `c` with reported
size equal to the length of `c` (stated from any state in which no file
pre-exists at the blob path). -/
theorem C1_putBlob_getBlob_roundtrip (sha : Bytes → String)
    (s : StorageHandler) (fs : FS) (repo image d : String) (c : Bytes)
    (hd : d = digestOf sha c)
    (hfresh : fs (s.blobPath repo image d) = none) :
    (s.PutBlob sha fs repo image d c).2 = none ∧
    s.GetBlob (s.PutBlob sha fs repo image d c).1 repo image d
      = some (c, c.length) := by
  subst hd
  simp [StorageHandler.PutBlob, StorageHandler.GetBlob, FS.write,
    overwriteFrom, hfresh]

/-- Witness for C1 at a concrete input. -/
theorem C1_witness :
    (NewStorageHandler.PutBlob (fun _ => "h") FS.empty "r" "i" "sha256:h"
      ['a']).2 = none ∧
    NewStorageHandler.GetBlob
      (NewStorageHandler.PutBlob (fun _ => "h") FS.empty "r" "i" "sha256:h"
        ['a']).1 "r" "i" "sha256:h" = some (['a'], 1) :=
  C1_putBlob_getBlob_roundtrip (fun _ => "h") NewStorageHandler FS.empty
    "r" "i" "sha256:h" ['a'] (by decide) rfl

/-- C2: for every content `c` and asserted digest `d'` with
`d' ≠ sha256(c)`, `PutBlob` fails with the digest-mismatch error, no file
survives at the blob path, and a subsequent `StatBlob(repo, image, d')`
reports not-found. -/
theorem C2_putBlob_mismatch_rollback (sha : Bytes → String)
    (s : StorageHandler) (fs : FS) (repo image d' : String) (c : Bytes)
    (hd : d' ≠ digestOf sha c) :
    (s.PutBlob sha fs repo image d' c).2 = some "blob hash mismatch" ∧
    (s.PutBlob sha fs repo image d' c).1 (s.blobPath repo image d') = none ∧
    s.StatBlob (s.PutBlob sha fs repo image d' c).1 repo image d' = none := by
  simp [StorageHandler.PutBlob, StorageHandler.StatBlob, FS.remove, hd]

/-- Witness for C2 at a concrete input. -/
theorem C2_witness :
    (NewStorageHandler.PutBlob (fun _ => "h") FS.empty "r" "i" "x"
      ['a']).2 = some "blob hash mismatch" ∧
    (NewStorageHandler.PutBlob (fun _ => "h") FS.empty "r" "i" "x" ['a']).1
      (NewStorageHandler.blobPath "r" "i" "x") = none ∧
    NewStorageHandler.StatBlob
      (NewStorageHandler.PutBlob (fun _ => "h") FS.empty "r" "i" "x"
        ['a']).1 "r" "i" "x" = none :=
  C2_putBlob_mismatch_rollback (fun _ => "h") NewStorageHandler FS.empty
    "r" "i" "x" ['a'] (by decide)

/-- C7 as stated is false: `PutTag` opens the tag file without truncation and
writes from offset 0, so a longer prior value keeps its tail.  With prior
value `"aaaa"` and new digest `"b"` the stored value is `"baaa"`, not
`"b"`. -/
theorem C7_counterexample :
    NewStorageHandler.PutTag
      (FS.empty.write (NewStorageHandler.tagPath "r" "i" "t") "aaaa".data)
      "r" "i" "t" "b" (NewStorageHandler.tagPath "r" "i" "t")
      = some "baaa".data ∧
    "baaa".data ≠ "b".data := by
  constructor
  · decide
  · decide

/-- C7 amended: `PutTag` unconditionally overwrites the prior tag value from
the start of the file, but without truncating; the stored value equals
exactly the new digest string whenever the prior value (if any) is not longer
than the new digest — in particular always for the equal-length sha256 digest
strings the system writes — while a longer prior value keeps its tail after
the new digest. -/
theorem C7_putTag_overwrites (s : StorageHandler) (fs : FS)
    (repo image tag hash : String)
    (h : ∀ old, fs (s.tagPath repo image tag) = some old →
      old.length ≤ hash.data.length) :
    s.PutTag fs repo image tag hash (s.tagPath repo image tag)
      = some hash.data := by
  simp only [StorageHandler.PutTag, FS.write, if_pos rfl, overwriteFrom]
  match hfs : fs (s.tagPath repo image tag) with
  | none => simp
  | some old =>
    have hle : old.length ≤ hash.length := h old hfs
    simp [List.drop_eq_nil_of_le, hle]

/-- Witness for the amended C7 at a concrete input. -/
theorem C7_witness :
    NewStorageHandler.PutTag
      (FS.empty.write (NewStorageHandler.tagPath "r" "i" "t") "aa".data)
      "r" "i" "t" "bb" (NewStorageHandler.tagPath "r" "i" "t")
      = some "bb".data :=
  C7_putTag_overwrites NewStorageHandler
    (FS.empty.write (NewStorageHandler.tagPath "r" "i" "t") "aa".data)
    "r" "i" "t" "bb"
    (fun old hold => by
      simp only [FS.write, if_pos rfl] at hold
      cases hold
      decide)

/-- C9: `Delete` is idempotent and total: for every state and id (including
ids never started or already cancelled) it removes the id from the active
set, leaves the backing temp file absent, and a second `Delete` of the same
id produces exactly the same state. -/
theorem C9_delete_idempotent (u : UploadHandler) (fs : FS) (id : String) :
    (u.Delete fs id).1.active.lookup id = none ∧
    (u.Delete fs id).2 (u.tmpFileForUpload id) = none ∧
    (u.Delete fs id).1.Delete (u.Delete fs id).2 id = u.Delete fs id := by
  refine ⟨?_, ?_, ?_⟩
  · simpa [UploadHandler.Delete] using lookup_filter_ne u.active id
  · simp [UploadHandler.Delete, FS.remove]
  · simp [UploadHandler.Delete, UploadHandler.tmpFileForUpload,
      filter_idem, remove_idem]

/-- C3: for every ttl and byte sequences `b1`, `b2`: after `id := Start(ttl)`,
`Append(id, b1)`, `Append(id, b2)`, an `End(id)` before expiry returns a
readable handle whose content is `b1 ++ b2`, and every `Append(id, ...)` after
the successful commit fails with the invalid-upload-id (unknown id)
condition.  The generated id parses as a UUID and its temp file does not
pre-exist, as `uuid.New()` guarantees. -/
theorem C3_upload_lifecycle (isUUID : String → Bool) (u0 : UploadHandler)
    (fs0 : FS) (id : String) (n0 ttl t1 t2 t3 : Nat) (b1 b2 : Bytes)
    (hid : isUUID id = true)
    (hfile : fs0 (u0.tmpFileForUpload id) = none)
    (h1 : t1 ≤ n0 + ttl) (h2 : t2 ≤ n0 + ttl) (h3 : t3 ≤ n0 + ttl) :
    ((u0.Start id n0 ttl).Append isUUID fs0 id b1 t1).2 = .ok b1.length ∧
    ((u0.Start id n0 ttl).Append isUUID
        ((u0.Start id n0 ttl).Append isUUID fs0 id b1 t1).1 id b2 t2).2
      = .ok b2.length ∧
    ((u0.Start id n0 ttl).End isUUID
        ((u0.Start id n0 ttl).Append isUUID
          ((u0.Start id n0 ttl).Append isUUID fs0 id b1 t1).1 id b2 t2).1
        id t3).2 = .ok (b1 ++ b2) ∧
    ∀ (fs : FS) (b : Bytes) (t : Nat),
      (((u0.Start id n0 ttl).End isUUID
          ((u0.Start id n0 ttl).Append isUUID
            ((u0.Start id n0 ttl).Append isUUID fs0 id b1 t1).1 id b2 t2).1
          id t3).1.Append isUUID fs id b t).2 = .error .unknownId := by
  have hvalid : ∀ t, t ≤ n0 + ttl →
      (u0.Start id n0 ttl).isValid isUUID id t = none := by
    intro t ht
    simp [UploadHandler.Start, UploadHandler.isValid, List.lookup, hid,
      Nat.not_lt.mpr ht]
  have hv1 := hvalid t1 h1
  have hv2 := hvalid t2 h2
  have hv3 := hvalid t3 h3
  have hbd : (u0.Start id n0 ttl).basedir = u0.basedir := rfl
  have hfile' : fs0 (u0.basedir ++ "/" ++ id ++ ".tmp") = none := hfile
  have e1 : (u0.Start id n0 ttl).Append isUUID fs0 id b1 t1
      = (fs0.write (u0.basedir ++ "/" ++ id ++ ".tmp") b1,
         Except.ok b1.length) := by
    simp [UploadHandler.Append, hv1, UploadHandler.tmpFileForUpload, hbd,
      hfile']
  have e2 : (u0.Start id n0 ttl).Append isUUID
      (fs0.write (u0.basedir ++ "/" ++ id ++ ".tmp") b1) id b2 t2
      = ((fs0.write (u0.basedir ++ "/" ++ id ++ ".tmp") b1).write
          (u0.basedir ++ "/" ++ id ++ ".tmp") (b1 ++ b2),
         Except.ok b2.length) := by
    simp [UploadHandler.Append, hv2, UploadHandler.tmpFileForUpload, hbd,
      FS.write_read]
  have e3 : (u0.Start id n0 ttl).End isUUID
      ((fs0.write (u0.basedir ++ "/" ++ id ++ ".tmp") b1).write
        (u0.basedir ++ "/" ++ id ++ ".tmp") (b1 ++ b2)) id t3
      = ({ u0.Start id n0 ttl with
            active := (u0.Start id n0 ttl).active.filter
              (fun q => !(q.1 == id)) },
         Except.ok (b1 ++ b2)) := by
    simp [UploadHandler.End, hv3, UploadHandler.tmpFileForUpload, hbd,
      FS.write_read]
  refine ⟨?_, ?_, ?_, ?_⟩
  · simp only [e1]
  · simp only [e1, e2]
  · simp only [e1, e2, e3]
  · intro fs b t
    simp only [e1, e2, e3]
    simp [UploadHandler.Append, UploadHandler.isValid, hid, lookup_filter_ne]

/-- Witness for C3 at a concrete input. -/
theorem C3_witness :
    ((NewUploadHandler.Start "u" 0 10).Append (fun _ => true) FS.empty "u"
      ['a'] 1).2 = .ok 1 ∧
    ((NewUploadHandler.Start "u" 0 10).Append (fun _ => true)
        ((NewUploadHandler.Start "u" 0 10).Append (fun _ => true) FS.empty
          "u" ['a'] 1).1 "u" ['b'] 2).2 = .ok 1 ∧
    ((NewUploadHandler.Start "u" 0 10).End (fun _ => true)
        ((NewUploadHandler.Start "u" 0 10).Append (fun _ => true)
          ((NewUploadHandler.Start "u" 0 10).Append (fun _ => true) FS.empty
            "u" ['a'] 1).1 "u" ['b'] 2).1 "u" 3).2 = .ok ['a', 'b'] ∧
    ∀ (fs : FS) (b : Bytes) (t : Nat),
      (((NewUploadHandler.Start "u" 0 10).End (fun _ => true)
          ((NewUploadHandler.Start "u" 0 10).Append (fun _ => true)
            ((NewUploadHandler.Start "u" 0 10).Append (fun _ => true)
              FS.empty "u" ['a'] 1).1 "u" ['b'] 2).1 "u" 3).1.Append
        (fun _ => true) fs "u" b t).2 = .error .unknownId :=
  C3_upload_lifecycle (fun _ => true) NewUploadHandler FS.empty "u" 0 10
    1 2 3 ['a'] ['b'] rfl rfl (by decide) (by decide) (by decide)

/-- C8: every id that is malformed (rejected by `uuid.Parse`), absent from
the active set, or past its expiry is rejected by the single `isValid`
validation, and both `Append` and `End` fail with exactly that
invalid-upload error, leaving the filesystem and session state unchanged. -/
theorem C8_invalid_ids_rejected (isUUID : String → Bool) (u : UploadHandler)
    (fs : FS) (id : String) (now : Nat)
    (h : isUUID id = false ∨ u.active.lookup id = none ∨
      ∃ e, u.active.lookup id = some e ∧ now > e) :
    ∃ err, u.isValid isUUID id now = some err ∧
      (∀ b, (u.Append isUUID fs id b now).1 = fs ∧
        (u.Append isUUID fs id b now).2 = .error err) ∧
      (u.End isUUID fs id now).1 = u ∧
      (u.End isUUID fs id now).2 = .error err := by
  have hbad : ∃ err, u.isValid isUUID id now = some err := by
    by_cases hu : isUUID id
    · rcases h with h | h | ⟨e, he, hlt⟩
      · exact absurd hu (by simp [h])
      · exact ⟨.unknownId, by simp [UploadHandler.isValid, hu, h]⟩
      · exact ⟨.expiredId, by simp [UploadHandler.isValid, hu, he, hlt]⟩
    · exact ⟨.malformedId, by
        simp [UploadHandler.isValid, Bool.not_eq_true _ ▸ hu]⟩
  obtain ⟨err, herr⟩ := hbad
  refine ⟨err, herr, fun b => ?_, ?_, ?_⟩
  · simp [UploadHandler.Append, herr]
  · simp [UploadHandler.End, herr]
  · simp [UploadHandler.End, herr]

/-- Witness for C8 at a concrete input (an id rejected by the UUID parser). -/
theorem C8_witness :
    ∃ err, NewUploadHandler.isValid (fun _ => false) "z" 0 = some err ∧
      (∀ b, (NewUploadHandler.Append (fun _ => false) FS.empty "z" b 0).1
          = FS.empty ∧
        (NewUploadHandler.Append (fun _ => false) FS.empty "z" b 0).2
          = .error err) ∧
      (NewUploadHandler.End (fun _ => false) FS.empty "z" 0).1
        = NewUploadHandler ∧
      (NewUploadHandler.End (fun _ => false) FS.empty "z" 0).2
        = .error err :=
  C8_invalid_ids_rejected (fun _ => false) NewUploadHandler FS.empty "z" 0
    (Or.inl rfl)

/-- C4 is violated by the code: `gc` contains a single `select` with no
surrounding loop, so on a trace of two ticks with no cancellation signal it
performs exactly one reclamation pass and exits, whereas the periodic sweeper
of the design would perform one pass per tick until cancelled. -/
theorem C4_gc_single_pass :
    gcCleans [GcEvent.tick, GcEvent.tick] = 1 ∧
    gcCleansSpec [GcEvent.tick, GcEvent.tick] = 2 ∧
    gcCleans [GcEvent.tick, GcEvent.tick]
      ≠ gcCleansSpec [GcEvent.tick, GcEvent.tick] :=
  ⟨rfl, rfl, by decide⟩

/-- C5 as stated is false: a successful manifest PUT whose reference is
itself a digest returns 201 without setting the `docker-content-digest`
header (`StoreManifest` returns from the `sha256:`-prefix branch before the
header is set). -/
theorem C5_counterexample :
    (ManifestHandler.StoreManifest NewStorageHandler (fun _ => "h") none
        ⟨NewUploadHandler, FS.empty⟩
        { method := "PUT", path := "/v2/r/i/manifests/sha256:h",
          query := fun _ => "", body := ['a'] }).1.status = some 201 ∧
    (ManifestHandler.StoreManifest NewStorageHandler (fun _ => "h") none
        ⟨NewUploadHandler, FS.empty⟩
        { method := "PUT", path := "/v2/r/i/manifests/sha256:h",
          query := fun _ => "", body := ['a'] }).1.headers.lookup
      "docker-content-digest" = none := by
  constructor
  · decide
  · decide

/-- C5 amended: a successful manifest PUT sets the `docker-content-digest`
response header to the computed digest of the body exactly when the reference
is a tag; when the reference is itself a digest the response is 201 with no
such header. -/
theorem C5_storeManifest_header (storage : StorageHandler)
    (sha : Bytes → String) (evt : EventHandler) (w : World) (r : Request)
    (repo image : String)
    (hri : r.RepositoryAndImage = some (repo, image))
    (hevt : ∀ f, evt = some f → f repo image r.ManifestID = none) :
    (hasPrefixL "sha256:".data r.ManifestID.data = false →
      (ManifestHandler.StoreManifest storage sha evt w r).1.status
          = some 201 ∧
      (ManifestHandler.StoreManifest storage sha evt w r).1.headers.lookup
          "docker-content-digest" = some (digestOf sha r.body)) ∧
    (hasPrefixL "sha256:".data r.ManifestID.data = true →
      (ManifestHandler.StoreManifest storage sha evt w r).1.status
          = some 201 ∧
      (ManifestHandler.StoreManifest storage sha evt w r).1.headers.lookup
          "docker-content-digest" = none) := by
  have hpb : storage.PutBlob sha w.fs repo image (digestOf sha r.body) r.body
      = (w.fs.write (storage.blobPath repo image (digestOf sha r.body))
          (overwriteFrom
            (w.fs (storage.blobPath repo image (digestOf sha r.body)))
            r.body), none) := by
    simp [StorageHandler.PutBlob]
  have hev : EventHandler.newTag evt repo image r.ManifestID = none := by
    revert hevt
    cases evt with
    | none => exact fun _ => rfl
    | some f => exact fun hevt => hevt f rfl
  constructor
  · intro htag
    simp [ManifestHandler.StoreManifest, hri, hpb, htag, hev,
      Response.setHeader, Response.writeHeader, List.lookup]
  · intro htag
    simp [ManifestHandler.StoreManifest, hri, hpb, htag,
      Response.writeHeader]

/-- Witness for the amended C5 at concrete inputs (one tag reference, one
digest reference). -/
theorem C5_witness :
    ((ManifestHandler.StoreManifest NewStorageHandler (fun _ => "h") none
        ⟨NewUploadHandler, FS.empty⟩
        { method := "PUT", path := "/v2/r/i/manifests/t",
          query := fun _ => "", body := ['a'] }).1.status = some 201 ∧
     (ManifestHandler.StoreManifest NewStorageHandler (fun _ => "h") none
        ⟨NewUploadHandler, FS.empty⟩
        { method := "PUT", path := "/v2/r/i/manifests/t",
          query := fun _ => "", body := ['a'] }).1.headers.lookup
        "docker-content-digest" = some "sha256:h") :=
  (C5_storeManifest_header NewStorageHandler (fun _ => "h") none
    ⟨NewUploadHandler, FS.empty⟩
    { method := "PUT", path := "/v2/r/i/manifests/t",
      query := fun _ => "", body := ['a'] } "r" "i" (by decide)
    (fun f h => Option.noConfusion h)).1 (by decide)

/-- C6: a request that is neither the ping path nor the auth endpoint, whose
credential fails the Authorizer's authorize check (yielding the canonical
unauthorized error), is answered with status 401 and code `UNAUTHORIZED`, the
server state is unchanged, and no blob-store, tag-store or upload-session
operation is performed. -/
theorem C6_unauthorized_short_circuit (authzer : Authorizer)
    (srvaddr : String) (storage : StorageHandler) (isUUID : String → Bool)
    (sha : Bytes → String) (guessMime : Bytes → String) (evt : EventHandler)
    (w : World) (r : Request) (newId : String) (now : Nat)
    (hping : r.IsPing = false) (hauth : r.IsAuth = false)
    (hz : authzer.authorize r = some ErrUnauthorized) :
    (Registry.ServeHTTP authzer srvaddr storage isUUID sha guessMime evt
        w r newId now).1.status = some 401 ∧
    (Registry.ServeHTTP authzer srvaddr storage isUUID sha guessMime evt
        w r newId now).1.errCodes = ["UNAUTHORIZED"] ∧
    (Registry.ServeHTTP authzer srvaddr storage isUUID sha guessMime evt
        w r newId now).2.1 = w ∧
    (Registry.ServeHTTP authzer srvaddr storage isUUID sha guessMime evt
        w r newId now).2.2 = [] := by
  simp [Registry.ServeHTTP, hping, hauth, hz, Error.Write,
    Response.writeHeader, ErrUnauthorized]

/-- Witness for C6 at a concrete blob request with an always-denying
authorizer. -/
theorem C6_witness :
    (Registry.ServeHTTP
        ⟨fun _ => .error ErrUnauthorized, fun _ => some ErrUnauthorized⟩
        "localhost:8080" NewStorageHandler (fun _ => true) (fun _ => "h")
        (fun _ => "j") none ⟨NewUploadHandler, FS.empty⟩
        { method := "GET", path := "/v2/r/i/blobs/sha256:h",
          query := fun _ => "", body := [] } "u" 0).1.status = some 401 ∧
    (Registry.ServeHTTP
        ⟨fun _ => .error ErrUnauthorized, fun _ => some ErrUnauthorized⟩
        "localhost:8080" NewStorageHandler (fun _ => true) (fun _ => "h")
        (fun _ => "j") none ⟨NewUploadHandler, FS.empty⟩
        { method := "GET", path := "/v2/r/i/blobs/sha256:h",
          query := fun _ => "", body := [] } "u" 0).1.errCodes
      = ["UNAUTHORIZED"] ∧
    (Registry.ServeHTTP
        ⟨fun _ => .error ErrUnauthorized, fun _ => some ErrUnauthorized⟩
        "localhost:8080" NewStorageHandler (fun _ => true) (fun _ => "h")
        (fun _ => "j") none ⟨NewUploadHandler, FS.empty⟩
        { method := "GET", path := "/v2/r/i/blobs/sha256:h",
          query := fun _ => "", body := [] } "u" 0).2.1
      = ⟨NewUploadHandler, FS.empty⟩ ∧
    (Registry.ServeHTTP
        ⟨fun _ => .error ErrUnauthorized, fun _ => some ErrUnauthorized⟩
        "localhost:8080" NewStorageHandler (fun _ => true) (fun _ => "h")
        (fun _ => "j") none ⟨NewUploadHandler, FS.empty⟩
        { method := "GET", path := "/v2/r/i/blobs/sha256:h",
          query := fun _ => "", body := [] } "u" 0).2.2 = [] :=
  C6_unauthorized_short_circuit
    ⟨fun _ => .error ErrUnauthorized, fun _ => some ErrUnauthorized⟩
    "localhost:8080" NewStorageHandler (fun _ => true) (fun _ => "h")
    (fun _ => "j") none ⟨NewUploadHandler, FS.empty⟩
    { method := "GET", path := "/v2/r/i/blobs/sha256:h",
      query := fun _ => "", body := [] } "u" 0 (by decide) (by decide) rfl

/-- C10: a final (non-PATCH, non-DELETE) upload request on a valid session
that omits the `digest` query parameter fails with an internal error only
after the session has already been ended: the id is removed from the active
set, the temp file is deleted when the commit handle closes, and the response
is a 500 internal error — the upload is unrecoverable. -/
theorem C10_commit_without_digest (storage : StorageHandler)
    (isUUID : String → Bool) (sha : Bytes → String) (w : World) (r : Request)
    (id repo img : String) (exp now : Nat)
    (hid : r.UploadID = id) (hne : id ≠ "")
    (hri : r.RepositoryAndImage = some (repo, img))
    (hdel : r.IsDelete = false) (hpatch : r.IsPatch = false)
    (hdig : r.query "digest" = "")
    (huuid : isUUID id = true)
    (hact : w.upload.active.lookup id = some exp) (hexp : now ≤ exp) :
    (BlobHandler.UploadBlob storage isUUID sha w r now).1.status
        = some 500 ∧
    (BlobHandler.UploadBlob storage isUUID sha w r now).1.errCodes
        = ["INTERNAL_SERVER_ERROR"] ∧
    (BlobHandler.UploadBlob storage isUUID sha w r now).2.1.upload.active.lookup
        id = none ∧
    (BlobHandler.UploadBlob storage isUUID sha w r now).2.1.fs
        (w.upload.tmpFileForUpload id) = none ∧
    (BlobHandler.UploadBlob storage isUUID sha w r now).2.2
        = [.upAppend id, .upEnd id] := by
  have hv : w.upload.isValid isUUID id now = none := by
    simp [UploadHandler.isValid, huuid, hact, Nat.not_lt.mpr hexp]
  simp only [BlobHandler.UploadBlob, hid, hri, hdel, hpatch, hdig]
  simp [hne, UploadHandler.Append, UploadHandler.End, hv, FS.write_read,
    tmpFileWrapperClose, UploadHandler.tmpFileForUpload, FS.remove,
    lookup_filter_ne, Error.Write, Response.writeHeader, Response.setHeader,
    ErrInternal]

/-- Witness for C10 at a concrete input. -/
theorem C10_witness :
    (BlobHandler.UploadBlob NewStorageHandler (fun _ => true) (fun _ => "h")
        ⟨⟨[("u", 5)], "/tmp/uploads"⟩, FS.empty⟩
        { method := "PUT", path := "/v2/r/i/blobs/upload/id/u",
          query := fun _ => "", body := ['a'] } 0).1.status = some 500 ∧
    (BlobHandler.UploadBlob NewStorageHandler (fun _ => true) (fun _ => "h")
        ⟨⟨[("u", 5)], "/tmp/uploads"⟩, FS.empty⟩
        { method := "PUT", path := "/v2/r/i/blobs/upload/id/u",
          query := fun _ => "", body := ['a'] } 0).1.errCodes
      = ["INTERNAL_SERVER_ERROR"] ∧
    (BlobHandler.UploadBlob NewStorageHandler (fun _ => true) (fun _ => "h")
        ⟨⟨[("u", 5)], "/tmp/uploads"⟩, FS.empty⟩
        { method := "PUT", path := "/v2/r/i/blobs/upload/id/u",
          query := fun _ => "", body := ['a'] } 0).2.1.upload.active.lookup
      "u" = none ∧
    (BlobHandler.UploadBlob NewStorageHandler (fun _ => true) (fun _ => "h")
        ⟨⟨[("u", 5)], "/tmp/uploads"⟩, FS.empty⟩
        { method := "PUT", path := "/v2/r/i/blobs/upload/id/u",
          query := fun _ => "", body := ['a'] } 0).2.1.fs
      ((⟨[("u", 5)], "/tmp/uploads"⟩ : UploadHandler).tmpFileForUpload "u")
      = none ∧
    (BlobHandler.UploadBlob NewStorageHandler (fun _ => true) (fun _ => "h")
        ⟨⟨[("u", 5)], "/tmp/uploads"⟩, FS.empty⟩
        { method := "PUT", path := "/v2/r/i/blobs/upload/id/u",
          query := fun _ => "", body := ['a'] } 0).2.2
      = [.upAppend "u", .upEnd "u"] :=
  C10_commit_without_digest NewStorageHandler (fun _ => true) (fun _ => "h")
    ⟨⟨[("u", 5)], "/tmp/uploads"⟩, FS.empty⟩
    { method := "PUT", path := "/v2/r/i/blobs/upload/id/u",
      query := fun _ => "", body := ['a'] } "u" "r" "i" 5 0
    (by decide) (by decide) (by decide) rfl rfl rfl rfl (by decide)
    (by decide)

end ImageRegistryApi
